import Mathlib

/-!
Verification of the python-firefly client library: a shallow embedding of
the token-caching authenticator (`firefly/ims_auth.py`), the generation
client (`firefly/client.py`), the typed response models
(`firefly/models.py`) and the CLI-level variation-count gate
(`firefly/cli.py`), together with theorems settling the specified
properties of the authenticated request/response pipeline.

Modelling conventions: JSON values are an inductive type with integer
numerics (the API traffics in integer fields only); wall-clock times are
integers (Python uses floats, but every comparison and sum in the source
is order/ring arithmetic that is identical over the integers); each
potential network interaction is an explicit `NetResult` argument that
says what the single HTTP call at that point would produce, and every
operation reports how many such calls it actually performed.  Python
exceptions become an error sum type carried in `Except`.
-/

/-- JSON values, as produced by `resp.json()` in the source. -/
inductive Json where
  | null : Json
  | bool : Bool → Json
  | num : Int → Json
  | str : String → Json
  | arr : List Json → Json
  | obj : List (String × Json) → Json

/-- First-match association lookup, the behaviour of `d[k]` / `d.get(k)`
on a Python dict rendered as an insertion-ordered key/value list. -/
def lookupKey : List (String × Json) → String → Option Json
  | [], _ => none
  | (k1, v) :: rest, k => if k1 == k then some v else lookupKey rest k

/-- Python `data[k]` on a JSON value: only dicts have string keys; a
missing key raises KeyError and a non-dict raises TypeError, both of
which every call site of the source treats identically. -/
def Json.getKey : Json → String → Option Json
  | .obj kvs, k => lookupKey kvs k
  | _, _ => none

/-- Python `data.get(k, default)` on a JSON dict. -/
def Json.getKeyD (j : Json) (k : String) (d : Json) : Json :=
  (Json.getKey j k).getD d

/-- Python truthiness of a JSON value (`if self._access_token and ...`). -/
def Json.truthy : Json → Bool
  | .null => false
  | .bool b => b
  | .num n => n != 0
  | .str s => s != ""
  | .arr xs => !xs.isEmpty
  | .obj kvs => !kvs.isEmpty

/-- Python `int(x)` on a JSON value: integers pass through, booleans
coerce, integer-shaped strings parse, everything else raises
(TypeError/ValueError).  (Exotic string forms such as embedded
underscores are not modelled; no property below depends on them.) -/
def pyInt : Json → Option Int
  | .num n => some n
  | .bool b => some (if b then 1 else 0)
  | .str s => s.toInt?
  | _ => none

/-- Python `dict[k] = v`: replace in place when the key exists, append
otherwise (insertion order is preserved). -/
def dictInsert (d : List (String × Json)) (k : String) (v : Json) :
    List (String × Json) :=
  if d.any (fun p => p.1 == k) then
    d.map (fun p => if p.1 == k then (k, v) else p)
  else
    d ++ [(k, v)]

/-- Python `d.update(kvs)`: left-to-right `dictInsert` of every pair. -/
def dictUpdate (d : List (String × Json)) (kvs : List (String × Json)) :
    List (String × Json) :=
  kvs.foldl (fun acc p => dictInsert acc p.1 p.2) d

/-- An HTTP response as the source observes it: status code, the parsed
JSON body when the body is valid JSON (`none` models a body on which
`resp.json()` raises `requests.exceptions.JSONDecodeError`), and the raw
body text (`resp.text`). -/
structure Response where
  status : Nat
  jsonBody : Option Json
  text : String

/-- Python `str(resp)` for a `requests.Response`: the repr
`<Response [code]>`, not the body. -/
def respRepr (r : Response) : String :=
  "<Response [" ++ toString r.status ++ "]>"

/-- What the single outbound HTTP call at a given program point would
produce: an HTTP response, or a transport-level exception carrying a
message (timeout, connection error, ...). -/
inductive NetResult where
  | resp : Response → NetResult
  | netFail : String → NetResult

/-- The exceptions the pipeline can raise: the two library error kinds
from `firefly/exceptions.py`, the local `ValueError` of input
validation, and the `requests.exceptions.JSONDecodeError` (a
`ValueError` subclass, not one of the caught classes) that escapes
`generate_image` on a non-JSON 2xx body. -/
inductive FireflyError where
  | authError : String → FireflyError
  | apiError : String → FireflyError
  | valueError : String → FireflyError
  | jsonDecodeError : FireflyError

/-- The mutable state of `AdobeIMSAuth`: `_access_token` (initially
`None`, otherwise whatever JSON value the exchange returned under
`access_token` — the source stores it without a type check) and
`_token_expiry` (initially 0). -/
structure AuthState where
  _access_token : Option Json
  _token_expiry : Int

/-- Result of one `get_access_token` call: the state after the call, the
returned token or raised exception, and whether a credential-exchange
network call was performed. -/
structure TokenOutcome where
  state : AuthState
  result : Except FireflyError Json
  exchanged : Bool

/-- Rendering of the cause inside `f"Failed to retrieve access token: {e}"`
when `raise_for_status` raised an `HTTPError`. -/
def httpErrorRepr (r : Response) : String :=
  toString r.status ++ " Error for url: token endpoint: " ++ r.text

/-- Rendering of the cause when `resp.json()` failed to parse. -/
def jsonDecodeRepr : String :=
  "Expecting value: line 1 column 1 (char 0)"

/-- Rendering of the cause when `data[\x22access_token\x22]` raised
(KeyError on a dict without the key, TypeError on a non-dict). -/
def tokenFieldErrorRepr : String :=
  "access_token"

/-- Rendering of the cause when `int(...)` raised on the `expires_in`
value. -/
def intConvRepr : String :=
  "invalid literal for int()"

/-- The body of the `try` block of `AdobeIMSAuth.get_access_token`
(ims_auth.py lines 25-33): POST to the token endpoint,
`raise_for_status`, parse JSON, store `data[\x22access_token\x22]` into
`self._access_token`, then store `now + int(data.get(\x22expires_in\x22, 3600))`
into `self._token_expiry`; any exception is re-raised as
`FireflyAuthError`.  The two cache stores are separate sequential
assignments, which is what makes a partial overwrite possible. -/
def AdobeIMSAuth.fetchAccessToken (st : AuthState) (now : Int)
    (net : NetResult) : TokenOutcome :=
  match net with
  | .netFail msg =>
      ⟨st, .error (.authError ("Failed to retrieve access token: " ++ msg)), true⟩
  | .resp r =>
      if 400 ≤ r.status ∧ r.status < 600 then
        ⟨st, .error (.authError
          ("Failed to retrieve access token: " ++ httpErrorRepr r)), true⟩
      else
        match r.jsonBody with
        | none =>
            ⟨st, .error (.authError
              ("Failed to retrieve access token: " ++ jsonDecodeRepr)), true⟩
        | some data =>
            match Json.getKey data "access_token" with
            | none =>
                ⟨st, .error (.authError
                  ("Failed to retrieve access token: " ++ tokenFieldErrorRepr)),
                  true⟩
            | some tok =>
                match pyInt (Json.getKeyD data "expires_in" (.num 3600)) with
                | none =>
                    ⟨{ st with _access_token := some tok },
                      .error (.authError
                        ("Failed to retrieve access token: " ++ intConvRepr)),
                      true⟩
                | some life =>
                    ⟨{ _access_token := some tok, _token_expiry := now + life },
                      .ok tok, true⟩

/-- `AdobeIMSAuth.get_access_token` (ims_auth.py lines 15-33): return the
cached token when it is truthy and `now < self._token_expiry - 60`,
otherwise perform one credential exchange. -/
def AdobeIMSAuth.get_access_token (st : AuthState) (now : Int)
    (net : NetResult) : TokenOutcome :=
  match st._access_token with
  | some tok =>
      if tok.truthy ∧ now < st._token_expiry - 60 then ⟨st, .ok tok, false⟩
      else AdobeIMSAuth.fetchAccessToken st now net
  | none => AdobeIMSAuth.fetchAccessToken st now net

/-- The typed models of `firefly/models.py`.  Python dataclasses perform
no runtime type check, so each leaf field holds whatever JSON value the
response carried. -/
structure FireflyImageSize where
  width : Json
  height : Json

/-- `FireflyImage` from models.py. -/
structure FireflyImage where
  url : Json

/-- `FireflyImageOutput` from models.py. -/
structure FireflyImageOutput where
  seed : Json
  image : FireflyImage

/-- `FireflyImageResponse` from models.py, retaining the raw response. -/
structure FireflyImageResponse where
  size : FireflyImageSize
  outputs : List FireflyImageOutput
  contentClass : Option Json
  _response : Response

/-- Python subscripting `x[k]` by a string key, as an `Option`: all the
failure modes at the call sites below (KeyError, TypeError) land in the
same caught-exception branch, so they are merged into `none`. -/
def pySubscriptStr (j : Json) (k : String) : Option Json :=
  Json.getKey j k

/-- Python `for x in v`: lists iterate elements, dicts iterate their
keys, strings iterate one-character strings; anything else raises
TypeError (merged into `none`, which the caller catches). -/
def pyIter : Json → Option (List Json)
  | .arr xs => some xs
  | .obj kvs => some (kvs.map (fun p => Json.str p.1))
  | .str s => some (s.toList.map (fun c => Json.str c.toString))
  | _ => none

/-- The list comprehension of client.py lines 127-132: for each entry,
read `output[\x22seed\x22]` and `output[\x22image\x22][\x22url\x22]` and build a
`FireflyImageOutput`; any failure propagates (to the caught branch). -/
def extractOutputs : List Json → Option (List FireflyImageOutput)
  | [] => some []
  | o :: rest =>
      match pySubscriptStr o "seed" with
      | none => none
      | some seedJ =>
          match pySubscriptStr o "image" with
          | none => none
          | some imgJ =>
              match pySubscriptStr imgJ "url" with
              | none => none
              | some urlJ =>
                  match extractOutputs rest with
                  | none => none
                  | some tail => some (⟨seedJ, ⟨urlJ⟩⟩ :: tail)

/-- The response-mapping `try` block of `generate_image` (client.py
lines 125-141).  `resp.json()` on a non-JSON body raises
`requests.exceptions.JSONDecodeError`, a `ValueError` subclass that is
NOT among the caught classes `(KeyError, IndexError, TypeError)`, so it
escapes uncaught; every shape failure inside the comprehension and the
`size` reads raises one of the caught classes and becomes
`FireflyAPIError(f\x22Unexpected response format: \x7bresp\x7d\x22)` — note the
message interpolates the `Response` object (its repr), not the body. -/
def parseGenerateResponse (resp : Response) :
    Except FireflyError FireflyImageResponse :=
  match resp.jsonBody with
  | none => .error .jsonDecodeError
  | some resp_json =>
      let failed : Except FireflyError FireflyImageResponse :=
        .error (.apiError ("Unexpected response format: " ++ respRepr resp))
      match pySubscriptStr resp_json "outputs" with
      | none => failed
      | some outsJ =>
          match pyIter outsJ with
          | none => failed
          | some outsList =>
              match extractOutputs outsList with
              | none => failed
              | some outputs =>
                  match pySubscriptStr resp_json "size" with
                  | none => failed
                  | some sizeJ =>
                      match pySubscriptStr sizeJ "width" with
                      | none => failed
                      | some wJ =>
                          match pySubscriptStr sizeJ "height" with
                          | none => failed
                          | some hJ =>
                              .ok { size := ⟨wJ, hJ⟩
                                    outputs := outputs
                                    contentClass :=
                                      Json.getKey resp_json "contentClass"
                                    _response := resp }

/-- One optional wire entry: empty when the parameter was not supplied. -/
def optEntry (k : String) : Option Json → List (String × Json)
  | none => []
  | some v => [(k, v)]

/-- `data[k] = v` when the optional parameter is present, `data`
unchanged when it is absent — one `if x is not None` block of
`generate_image`. -/
def addOpt (d : List (String × Json)) (k : String) (o : Option Json) :
    List (String × Json) :=
  match o with
  | none => d
  | some v => dictInsert d k v

/-- Sequential `addOpt` over a list of (wire name, optional value)
pairs: the chain of `if x is not None: data[wireName] = x` statements. -/
def addOpts (d : List (String × Json)) :
    List (String × Option Json) → List (String × Json)
  | [] => d
  | (k, o) :: rest => addOpts (addOpt d k o) rest

/-- The body-construction prefix of `generate_image` (client.py lines
102-123): start from `{\x22prompt\x22: prompt}`, add each supplied optional
parameter under its wire name in source order, validate `content_class`
against `(\x22photo\x22, \x22art\x22)` (raising `ValueError` otherwise), and
finally `data.update(kwargs)`. -/
def buildRequestBody (prompt : String) (num_variations : Option Int)
    (style structure2 : Option Json)
    (prompt_biasing_locale_code negative_prompt : Option String)
    (seed : Option Int)
    (aspect_ratio2 output_format2 content_class : Option String)
    (kwargs : List (String × Json)) :
    Except FireflyError (List (String × Json)) :=
  let d8 := addOpts [("prompt", Json.str prompt)]
    [("numVariations", num_variations.map Json.num),
     ("style", style),
     ("structure", structure2),
     ("promptBiasingLocaleCode", prompt_biasing_locale_code.map Json.str),
     ("negativePrompt", negative_prompt.map Json.str),
     ("seed", seed.map Json.num),
     ("aspectRatio", aspect_ratio2.map Json.str),
     ("outputFormat", output_format2.map Json.str)]
  match content_class with
  | none => .ok (dictUpdate d8 kwargs)
  | some cc =>
      if cc = "photo" ∨ cc = "art" then
        .ok (dictUpdate (dictInsert d8 "contentClass" (Json.str cc)) kwargs)
      else
        .error (.valueError "content_class must be either photo or art")

/-- Result of one `FireflyClient._request` call: authenticator state
after the call, the response or raised exception, the number of
credential exchanges performed (0 or 1) and the number of generation
requests issued (0 or 1). -/
structure RequestOutcome where
  state : AuthState
  result : Except FireflyError Response
  tokenExchanges : Nat
  genRequests : Nat

/-- `FireflyClient._request` (client.py lines 30-64): obtain a token
OUTSIDE the `try` block (an authenticator failure propagates untouched
and no generation request is issued), then issue the request;
`raise_for_status` raises `HTTPError` exactly for statuses in
[400, 600), mapped to `FireflyAuthError` for 401 and `FireflyAPIError`
otherwise; any transport-level exception becomes
`FireflyAPIError(f\x22Request failed: \x7be\x7d\x22)`.  (Header assembly has no
bearing on the properties below and is not modelled.) -/
def FireflyClient._request (st : AuthState) (now : Int)
    (tokenNet genNet : NetResult) : RequestOutcome :=
  match AdobeIMSAuth.get_access_token st now tokenNet with
  | ⟨st2, .error e, exchanged⟩ => ⟨st2, .error e, exchanged.toNat, 0⟩
  | ⟨st2, .ok _tok, exchanged⟩ =>
      match genNet with
      | .netFail msg =>
          ⟨st2, .error (.apiError ("Request failed: " ++ msg)),
            exchanged.toNat, 1⟩
      | .resp r =>
          if 400 ≤ r.status ∧ r.status < 600 then
            if r.status = 401 then
              ⟨st2, .error (.authError ("Unauthorized: " ++ r.text)),
                exchanged.toNat, 1⟩
            else
              ⟨st2, .error (.apiError ("API error: " ++ r.text)),
                exchanged.toNat, 1⟩
          else
            ⟨st2, .ok r, exchanged.toNat, 1⟩

/-- Result of one `generate_image` call, additionally recording the JSON
body of the generation request when one was issued. -/
structure GenOutcome where
  state : AuthState
  result : Except FireflyError FireflyImageResponse
  tokenExchanges : Nat
  genRequests : Nat
  sentBody : Option (List (String × Json))

/-- `FireflyClient.generate_image` (client.py lines 66-141): build and
validate the request body, POST it through `_request`, and map the
response. -/
def FireflyClient.generate_image (st : AuthState) (now : Int)
    (tokenNet genNet : NetResult) (prompt : String)
    (num_variations : Option Int) (style structure2 : Option Json)
    (prompt_biasing_locale_code negative_prompt : Option String)
    (seed : Option Int)
    (aspect_ratio2 output_format2 content_class : Option String)
    (kwargs : List (String × Json)) : GenOutcome :=
  match buildRequestBody prompt num_variations style structure2
      prompt_biasing_locale_code negative_prompt seed aspect_ratio2
      output_format2 content_class kwargs with
  | .error e => ⟨st, .error e, 0, 0, none⟩
  | .ok data =>
      match FireflyClient._request st now tokenNet genNet with
      | ⟨st2, .error e, nTok, nGen⟩ =>
          ⟨st2, .error e, nTok, nGen,
            if nGen = 1 then some data else none⟩
      | ⟨st2, .ok resp, nTok, nGen⟩ =>
          ⟨st2, parseGenerateResponse resp, nTok, nGen, some data⟩

/-- Outcome of the CLI front end before any client work. -/
inductive CliResult where
  | exited : Int → CliResult
  | ranClient : CliResult
deriving DecidableEq

/-- The variation-count gate of the CLI `generate` command (cli.py lines
126-128): `if num_variations is not None and not (1 <= num_variations
<= 4)` print an error and `raise typer.Exit(code=-1)`; otherwise control
proceeds towards the `FireflyClient` call.  (The unrelated earlier
credential-presence checks and JSON parsing of style/structure are
outside this property and elided.) -/
def cli_generate_flow (num_variations : Option Int) : CliResult :=
  match num_variations with
  | some nv => if 1 ≤ nv ∧ nv ≤ 4 then .ranClient else .exited (-1)
  | none => .ranClient

/-- A key does not occur in a key/value list. -/
def keyAbsent (k : String) (d : List (String × Json)) : Prop :=
  ∀ p ∈ d, p.1 ≠ k

/-- Flattened spec-side form of `addOpts`: the concatenation of one
`optEntry` per parameter. -/
def optEntries : List (String × Option Json) → List (String × Json)
  | [] => []
  | (k, o) :: rest => optEntry k o ++ optEntries rest

/-- Recognizer for the authentication error kind. -/
def FireflyError.isAuth : FireflyError → Bool
  | .authError _ => true
  | _ => false

theorem keyAbsent_any_false {k : String} {d : List (String × Json)}
    (h : keyAbsent k d) : d.any (fun p => p.1 == k) = false := by
  rw [List.any_eq_false]
  intro p hp
  simpa using h p hp

theorem dictInsert_eq_append {k : String} {d : List (String × Json)}
    (h : keyAbsent k d) (v : Json) : dictInsert d k v = d ++ [(k, v)] := by
  unfold dictInsert
  rw [keyAbsent_any_false h]
  simp

theorem addOpt_eq_append {k : String} {d : List (String × Json)}
    (h : keyAbsent k d) (o : Option Json) :
    addOpt d k o = d ++ optEntry k o := by
  cases o with
  | none => simp [addOpt, optEntry]
  | some v => simpa [addOpt, optEntry] using dictInsert_eq_append h v

theorem keyAbsent_append {k : String} {d1 d2 : List (String × Json)}
    (h1 : keyAbsent k d1) (h2 : keyAbsent k d2) :
    keyAbsent k (d1 ++ d2) := by
  intro p hp
  rcases List.mem_append.mp hp with h | h
  · exact h1 p h
  · exact h2 p h

theorem keyAbsent_optEntry {k1 k : String} (h : k1 ≠ k) (o : Option Json) :
    keyAbsent k (optEntry k1 o) := by
  cases o with
  | none =>
      intro p hp
      simp [optEntry] at hp
  | some v =>
      intro p hp
      simp only [optEntry, List.mem_singleton] at hp
      subst hp
      exact h

theorem keyAbsent_optEntries {k : String} {l : List (String × Option Json)}
    (h : ∀ p ∈ l, p.1 ≠ k) : keyAbsent k (optEntries l) := by
  induction l with
  | nil =>
      intro p hp
      simp [optEntries] at hp
  | cons q rest ih =>
      obtain ⟨k1, o⟩ := q
      show keyAbsent k (optEntry k1 o ++ optEntries rest)
      exact keyAbsent_append
        (keyAbsent_optEntry (h (k1, o) (List.mem_cons_self _ _)) o)
        (ih fun p hp => h p (List.mem_cons_of_mem _ hp))

/-- When the added keys are fresh and mutually distinct, the sequential
dict inserts amount to appending one entry per supplied parameter. -/
theorem addOpts_eq_append (d : List (String × Json))
    (l : List (String × Option Json))
    (hd : ∀ p ∈ l, keyAbsent p.1 d)
    (hl : l.Pairwise (fun p q => p.1 ≠ q.1)) :
    addOpts d l = d ++ optEntries l := by
  induction l generalizing d with
  | nil => simp [addOpts, optEntries]
  | cons q rest ih =>
      obtain ⟨k, o⟩ := q
      rw [List.pairwise_cons] at hl
      have step : addOpt d k o = d ++ optEntry k o :=
        addOpt_eq_append (hd (k, o) (List.mem_cons_self _ _)) o
      show addOpts (addOpt d k o) rest = d ++ (optEntry k o ++ optEntries rest)
      rw [step, ih (d ++ optEntry k o) ?fresh hl.2, List.append_assoc]
      case fresh =>
        intro p hp
        exact keyAbsent_append (hd p (List.mem_cons_of_mem _ hp))
          (keyAbsent_optEntry (hl.1 p hp) o)

/-- The eight unconditional optional-parameter inserts of
`generate_image` amount to appending one wire-named entry per supplied
parameter after the required prompt. -/
theorem addOpts_wire_eq (p0 : Json) (o1 o2 o3 o4 o5 o6 o7 o8 : Option Json) :
    addOpts [("prompt", p0)]
      [("numVariations", o1), ("style", o2), ("structure", o3),
       ("promptBiasingLocaleCode", o4), ("negativePrompt", o5),
       ("seed", o6), ("aspectRatio", o7), ("outputFormat", o8)] =
    [("prompt", p0)]
      ++ optEntry "numVariations" o1 ++ optEntry "style" o2
      ++ optEntry "structure" o3 ++ optEntry "promptBiasingLocaleCode" o4
      ++ optEntry "negativePrompt" o5 ++ optEntry "seed" o6
      ++ optEntry "aspectRatio" o7 ++ optEntry "outputFormat" o8 := by
  rw [addOpts_eq_append]
  · simp [optEntries, List.append_assoc]
  · intro p hp
    fin_cases hp <;>
      · intro q hq
        fin_cases hq
        simp
  · simp [List.pairwise_cons]

/-- The wire name `contentClass` never occurs among the entries produced
by the first nine parameters. -/
theorem keyAbsent_contentClass (p0 : Json) (o1 o2 o3 o4 o5 o6 o7 o8 : Option Json) :
    keyAbsent "contentClass"
      ([("prompt", p0)]
        ++ optEntry "numVariations" o1 ++ optEntry "style" o2
        ++ optEntry "structure" o3 ++ optEntry "promptBiasingLocaleCode" o4
        ++ optEntry "negativePrompt" o5 ++ optEntry "seed" o6
        ++ optEntry "aspectRatio" o7 ++ optEntry "outputFormat" o8) := by
  repeat' apply keyAbsent_append
  all_goals first
    | exact keyAbsent_optEntry (by decide) _
    | (intro q hq; fin_cases hq; simp)

/-- With no extra keyword arguments and a valid (or absent)
`content_class`, the constructed body is exactly the prompt entry
followed by one wire-named entry per supplied optional parameter, in
source order, with nothing for absent parameters. -/
theorem buildRequestBody_ok (prompt : String) (num_variations : Option Int)
    (style structure2 : Option Json)
    (prompt_biasing_locale_code negative_prompt : Option String)
    (seed : Option Int)
    (aspect_ratio2 output_format2 content_class : Option String)
    (hcc : content_class = none ∨ content_class = some "photo" ∨
      content_class = some "art") :
    buildRequestBody prompt num_variations style structure2
        prompt_biasing_locale_code negative_prompt seed aspect_ratio2
        output_format2 content_class [] =
      .ok ([("prompt", Json.str prompt)]
        ++ optEntry "numVariations" (num_variations.map Json.num)
        ++ optEntry "style" style
        ++ optEntry "structure" structure2
        ++ optEntry "promptBiasingLocaleCode"
            (prompt_biasing_locale_code.map Json.str)
        ++ optEntry "negativePrompt" (negative_prompt.map Json.str)
        ++ optEntry "seed" (seed.map Json.num)
        ++ optEntry "aspectRatio" (aspect_ratio2.map Json.str)
        ++ optEntry "outputFormat" (output_format2.map Json.str)
        ++ optEntry "contentClass" (content_class.map Json.str)) := by
  unfold buildRequestBody
  rw [addOpts_wire_eq]
  rcases hcc with rfl | rfl | rfl
  · simp [dictUpdate, optEntry]
  · rw [show ((some "photo").map Json.str) = some (Json.str "photo") from rfl]
    simp only [dictUpdate, List.foldl_nil]
    rw [dictInsert_eq_append
      (keyAbsent_contentClass (Json.str prompt) (num_variations.map Json.num)
        style structure2 (prompt_biasing_locale_code.map Json.str)
        (negative_prompt.map Json.str) (seed.map Json.num)
        (aspect_ratio2.map Json.str) (output_format2.map Json.str))
      (Json.str "photo")]
    simp [optEntry]
  · rw [show ((some "art").map Json.str) = some (Json.str "art") from rfl]
    simp only [dictUpdate, List.foldl_nil]
    rw [dictInsert_eq_append
      (keyAbsent_contentClass (Json.str prompt) (num_variations.map Json.num)
        style structure2 (prompt_biasing_locale_code.map Json.str)
        (negative_prompt.map Json.str) (seed.map Json.num)
        (aspect_ratio2.map Json.str) (output_format2.map Json.str))
      (Json.str "art")]
    simp [optEntry]

/-- Cache hit: with a truthy token and `now` strictly inside the safety
margin, `get_access_token` returns the cached token unchanged and makes
no network call. -/
theorem get_access_token_hit (t : String) (ht : t ≠ "") (e now : Int)
    (hvalid : now < e - 60) (net : NetResult) :
    AdobeIMSAuth.get_access_token ⟨some (.str t), e⟩ now net
      = ⟨⟨some (.str t), e⟩, .ok (.str t), false⟩ := by
  show (if Json.truthy (Json.str t) = true ∧ now < e - 60 then
      ({ state := ⟨some (Json.str t), e⟩, result := .ok (Json.str t),
         exchanged := false } : TokenOutcome)
    else AdobeIMSAuth.fetchAccessToken ⟨some (Json.str t), e⟩ now net)
    = ⟨⟨some (.str t), e⟩, .ok (.str t), false⟩
  rw [if_pos ⟨by simp [Json.truthy, ht], hvalid⟩]

/-- When the token step succeeds, `_request` classifies the generation
response by status: HTTPError is raised exactly for [400, 600), with 401
mapped to the auth error. -/
theorem request_after_token {st st2 : AuthState} {now : Int}
    {tokenNet : NetResult} {tok : Json} {b : Bool}
    (h : AdobeIMSAuth.get_access_token st now tokenNet = ⟨st2, .ok tok, b⟩)
    (r : Response) :
    FireflyClient._request st now tokenNet (.resp r) =
      if 400 ≤ r.status ∧ r.status < 600 then
        if r.status = 401 then
          ⟨st2, .error (.authError ("Unauthorized: " ++ r.text)), b.toNat, 1⟩
        else
          ⟨st2, .error (.apiError ("API error: " ++ r.text)), b.toNat, 1⟩
      else ⟨st2, .ok r, b.toNat, 1⟩ := by
  unfold FireflyClient._request
  rw [h]

/-- When the token step succeeds and the generation call fails at
transport level, `_request` raises the API error. -/
theorem request_after_token_netfail {st st2 : AuthState} {now : Int}
    {tokenNet : NetResult} {tok : Json} {b : Bool}
    (h : AdobeIMSAuth.get_access_token st now tokenNet = ⟨st2, .ok tok, b⟩)
    (msg : String) :
    FireflyClient._request st now tokenNet (.netFail msg)
      = ⟨st2, .error (.apiError ("Request failed: " ++ msg)), b.toNat, 1⟩ := by
  unfold FireflyClient._request
  rw [h]

/-- When the token step fails, `_request` re-raises that error untouched
and issues no generation request. -/
theorem request_token_error {st st2 : AuthState} {now : Int}
    {tokenNet : NetResult} {err : FireflyError} {b : Bool}
    (h : AdobeIMSAuth.get_access_token st now tokenNet
      = ⟨st2, .error err, b⟩) (genNet : NetResult) :
    FireflyClient._request st now tokenNet genNet
      = ⟨st2, .error err, b.toNat, 0⟩ := by
  unfold FireflyClient._request
  rw [h]

/-- `generate_image` with only a prompt, when `_request` fails. -/
theorem generate_image_result_error {st : AuthState} {now : Int}
    {tokenNet genNet : NetResult} {st2 : AuthState} {err : FireflyError}
    {nTok nGen : Nat}
    (hreq : FireflyClient._request st now tokenNet genNet
      = ⟨st2, .error err, nTok, nGen⟩) (prompt : String) :
    FireflyClient.generate_image st now tokenNet genNet prompt
        none none none none none none none none none [] =
      ⟨st2, .error err, nTok, nGen,
        if nGen = 1 then some [("prompt", Json.str prompt)] else none⟩ := by
  unfold FireflyClient.generate_image
  rw [hreq]
  rfl

/-- Every failure raised by the fetch path of the authenticator is the
authentication error kind. -/
theorem fetchAccessToken_error_auth (st : AuthState) (now : Int)
    (net : NetResult) (e : FireflyError)
    (h : (AdobeIMSAuth.fetchAccessToken st now net).result = .error e) :
    e.isAuth = true := by
  unfold AdobeIMSAuth.fetchAccessToken at h
  repeat' split at h
  all_goals simp_all [FireflyError.isAuth]
  all_goals rw [← h]

/-- Every failure raised by `get_access_token` is the authentication
error kind. -/
theorem get_access_token_error_auth (st : AuthState) (now : Int)
    (net : NetResult) (e : FireflyError)
    (h : (AdobeIMSAuth.get_access_token st now net).result = .error e) :
    e.isAuth = true := by
  unfold AdobeIMSAuth.get_access_token at h
  repeat' split at h
  all_goals first
    | exact fetchAccessToken_error_auth _ _ _ _ h
    | simp_all

/-- With a valid (or absent) content class the body construction never
raises, whatever the extra keyword arguments. -/
theorem buildRequestBody_isOk (prompt : String) (num_variations : Option Int)
    (style structure2 : Option Json)
    (prompt_biasing_locale_code negative_prompt : Option String)
    (seed : Option Int)
    (aspect_ratio2 output_format2 content_class : Option String)
    (kwargs : List (String × Json))
    (hcc : content_class = none ∨ content_class = some "photo" ∨
      content_class = some "art") :
    ∃ d, buildRequestBody prompt num_variations style structure2
        prompt_biasing_locale_code negative_prompt seed aspect_ratio2
        output_format2 content_class kwargs = .ok d := by
  unfold buildRequestBody
  rcases hcc with rfl | rfl | rfl
  · exact ⟨_, rfl⟩
  · exact ⟨_, rfl⟩
  · exact ⟨_, rfl⟩

/-- `generate_image` with only a prompt, when `_request` succeeds. -/
theorem generate_image_result_ok {st : AuthState} {now : Int}
    {tokenNet genNet : NetResult} {st2 : AuthState} {resp : Response}
    {nTok nGen : Nat}
    (hreq : FireflyClient._request st now tokenNet genNet
      = ⟨st2, .ok resp, nTok, nGen⟩) (prompt : String) :
    FireflyClient.generate_image st now tokenNet genNet prompt
        none none none none none none none none none [] =
      ⟨st2, parseGenerateResponse resp, nTok, nGen,
        some [("prompt", Json.str prompt)]⟩ := by
  unfold FireflyClient.generate_image
  rw [hreq]
  rfl

/-- Once the token step has succeeded, exactly one generation request is
issued whatever the generation endpoint does. -/
theorem request_after_token_genone {st st2 : AuthState} {now : Int}
    {tokenNet : NetResult} {tok : Json} {b : Bool}
    (h : AdobeIMSAuth.get_access_token st now tokenNet = ⟨st2, .ok tok, b⟩)
    (genNet : NetResult) :
    ∃ res, FireflyClient._request st now tokenNet genNet
      = ⟨st2, res, b.toNat, 1⟩ := by
  rcases genNet with r | msg
  · rw [request_after_token h r]
    by_cases h4 : 400 ≤ r.status ∧ r.status < 600
    · rw [if_pos h4]
      by_cases h1 : r.status = 401
      · rw [if_pos h1]
        exact ⟨_, rfl⟩
      · rw [if_neg h1]
        exact ⟨_, rfl⟩
    · rw [if_neg h4]
      exact ⟨_, rfl⟩
  · rw [request_after_token_netfail h msg]
    exact ⟨_, rfl⟩

/-- When the body construction succeeds and one generation request is
issued, `generate_image` records the constructed body as sent. -/
theorem generate_image_sent {st : AuthState} {now : Int}
    {tokenNet genNet : NetResult} {st2 : AuthState}
    {res : Except FireflyError Response} {nTok : Nat}
    {d : List (String × Json)}
    (prompt : String) (num_variations : Option Int)
    (style structure2 : Option Json)
    (prompt_biasing_locale_code negative_prompt : Option String)
    (seed : Option Int)
    (aspect_ratio2 output_format2 content_class : Option String)
    (kwargs : List (String × Json))
    (hd : buildRequestBody prompt num_variations style structure2
        prompt_biasing_locale_code negative_prompt seed aspect_ratio2
        output_format2 content_class kwargs = .ok d)
    (hreq : FireflyClient._request st now tokenNet genNet
      = ⟨st2, res, nTok, 1⟩) :
    (FireflyClient.generate_image st now tokenNet genNet prompt
        num_variations style structure2 prompt_biasing_locale_code
        negative_prompt seed aspect_ratio2 output_format2 content_class
        kwargs).sentBody = some d ∧
    (FireflyClient.generate_image st now tokenNet genNet prompt
        num_variations style structure2 prompt_biasing_locale_code
        negative_prompt seed aspect_ratio2 output_format2 content_class
        kwargs).genRequests = 1 := by
  unfold FireflyClient.generate_image
  rw [hd, hreq]
  rcases res with e | r
  · exact ⟨rfl, rfl⟩
  · exact ⟨rfl, rfl⟩

/-- C1 counterexample: the claim fails for an exchange that returns an
empty-string `access_token`.  The exchange at `t0 = 0` with
`expires_in = 7200` caches the empty token, yet the follow-up call at
`now = 0 < t0 + 7200 - 60` still performs a credential exchange
(`exchanged = true`), because the Python truthiness test
`if self._access_token and ...` treats the empty string as absent. -/
theorem C1_counterexample :
    (AdobeIMSAuth.get_access_token ⟨none, 0⟩ 0
        (.resp ⟨200, some (.obj [("access_token", .str ""),
          ("expires_in", .num 7200)]), ""⟩)
      = ⟨⟨some (.str ""), 0 + 7200⟩, .ok (.str ""), true⟩) ∧
    ((0 : Int) < 0 + 7200 - 60) ∧
    ((AdobeIMSAuth.get_access_token ⟨some (.str ""), 0 + 7200⟩ 0
        (.resp ⟨200, some (.obj [("access_token", .str "fresh"),
          ("expires_in", .num 7200)]), ""⟩)).exchanged = true) :=
  ⟨rfl, by decide, rfl⟩

/-- C1 (amended): provided the cached token string is non-empty (hence
Python-truthy), a client whose token was obtained from an exchange
returning `expires_in = T` at time `t0` holds state
`(some token, t0 + T)`; a call at `now < t0 + T - 60` returns the cached
token with no network call, and a call at `now ≥ t0 + T - 60` performs
the (single) credential exchange and on success stores the returned
`access_token` with expiry `now + expires_in`, defaulting `expires_in`
to 3600 when absent, and returns the new token. -/
theorem C1_token_cache (s : String) (hs : s ≠ "") (T t0 now E : Int)
    (net : NetResult) (tok2 : Json) :
    (AdobeIMSAuth.get_access_token ⟨none, 0⟩ t0
        (.resp ⟨200, some (.obj [("access_token", .str s),
          ("expires_in", .num T)]), ""⟩)
      = ⟨⟨some (.str s), t0 + T⟩, .ok (.str s), true⟩) ∧
    (now < t0 + T - 60 →
      AdobeIMSAuth.get_access_token ⟨some (.str s), t0 + T⟩ now net
        = ⟨⟨some (.str s), t0 + T⟩, .ok (.str s), false⟩) ∧
    (t0 + T - 60 ≤ now →
      AdobeIMSAuth.get_access_token ⟨some (.str s), t0 + T⟩ now
          (.resp ⟨200, some (.obj [("access_token", tok2),
            ("expires_in", .num E)]), ""⟩)
        = ⟨⟨some tok2, now + E⟩, .ok tok2, true⟩) ∧
    (t0 + T - 60 ≤ now →
      AdobeIMSAuth.get_access_token ⟨some (.str s), t0 + T⟩ now
          (.resp ⟨200, some (.obj [("access_token", tok2)]), ""⟩)
        = ⟨⟨some tok2, now + 3600⟩, .ok tok2, true⟩) := by
  have ht : Json.truthy (Json.str s) = true := by simp [Json.truthy, hs]
  refine ⟨rfl, ?_, ?_, ?_⟩
  · intro hnow
    show (if Json.truthy (Json.str s) = true ∧ now < t0 + T - 60 then
        ({ state := ⟨some (Json.str s), t0 + T⟩, result := .ok (Json.str s),
           exchanged := false } : TokenOutcome)
      else AdobeIMSAuth.fetchAccessToken ⟨some (Json.str s), t0 + T⟩ now net)
      = ⟨⟨some (.str s), t0 + T⟩, .ok (.str s), false⟩
    rw [if_pos ⟨ht, hnow⟩]
  · intro hnow
    show (if Json.truthy (Json.str s) = true ∧ now < t0 + T - 60 then
        ({ state := ⟨some (Json.str s), t0 + T⟩, result := .ok (Json.str s),
           exchanged := false } : TokenOutcome)
      else AdobeIMSAuth.fetchAccessToken ⟨some (Json.str s), t0 + T⟩ now
        (.resp ⟨200, some (.obj [("access_token", tok2),
          ("expires_in", .num E)]), ""⟩))
      = ⟨⟨some tok2, now + E⟩, .ok tok2, true⟩
    rw [if_neg (fun h => absurd h.2 (by omega))]
    rfl
  · intro hnow
    show (if Json.truthy (Json.str s) = true ∧ now < t0 + T - 60 then
        ({ state := ⟨some (Json.str s), t0 + T⟩, result := .ok (Json.str s),
           exchanged := false } : TokenOutcome)
      else AdobeIMSAuth.fetchAccessToken ⟨some (Json.str s), t0 + T⟩ now
        (.resp ⟨200, some (.obj [("access_token", tok2)]), ""⟩))
      = ⟨⟨some tok2, now + 3600⟩, .ok tok2, true⟩
    rw [if_neg (fun h => absurd h.2 (by omega))]
    rfl

/-- C1 witness: with token "tok" cached at expiry 3600, the call at
`now = 100` hits the cache without a network call, while the call at
`now = 4000` exchanges and stores the new token and expiry. -/
theorem C1_token_cache_witness :
    (AdobeIMSAuth.get_access_token ⟨some (.str "tok"), 0 + 3600⟩ 100
        (.netFail "x")
      = ⟨⟨some (.str "tok"), 0 + 3600⟩, .ok (.str "tok"), false⟩) ∧
    (AdobeIMSAuth.get_access_token ⟨some (.str "tok"), 0 + 3600⟩ 4000
        (.resp ⟨200, some (.obj [("access_token", .str "tok2"),
          ("expires_in", .num 60)]), ""⟩)
      = ⟨⟨some (.str "tok2"), 4000 + 60⟩, .ok (.str "tok2"), true⟩) :=
  ⟨(C1_token_cache "tok" (by decide) 3600 0 100 60 (.netFail "x")
      (.str "tok2")).2.1 (by decide),
   (C1_token_cache "tok" (by decide) 3600 0 4000 60 (.netFail "x")
      (.str "tok2")).2.2.1 (by decide)⟩

/-- C2 counterexample: a non-2xx status below 400 is NOT raised as an
error.  A 304 generation response with a well-formed body makes
`generate_image` return a successful result, because
`raise_for_status` only raises for statuses in [400, 600); the claim
says any non-2xx response raises the API error. -/
theorem C2_counterexample :
    (FireflyClient.generate_image ⟨some (.str "tok"), 100000⟩ 0
        (.netFail "unused")
        (.resp ⟨304, some (.obj [
          ("size", .obj [("width", .num 2048), ("height", .num 2048)]),
          ("outputs", .arr [.obj [("seed", .num 1), ("image",
            .obj [("url", .str "u")])]])]), "raw"⟩)
        "p" none none none none none none none none none []).result
      = .ok { size := ⟨Json.num 2048, Json.num 2048⟩,
              outputs := [⟨Json.num 1, ⟨Json.str "u"⟩⟩],
              contentClass := none,
              _response := ⟨304, some (.obj [
                ("size", .obj [("width", .num 2048), ("height", .num 2048)]),
                ("outputs", .arr [.obj [("seed", .num 1), ("image",
                  .obj [("url", .str "u")])]])]), "raw"⟩ } := rfl

/-- C2 (amended): with a valid cached token, a generation response with
status 401 raises the authentication error; a status in [400, 600)
other than 401 raises the API error (statuses below 400 are not
errors); a transport failure of the generation call raises the API
error; and a failing identity exchange — an HTTP error status or a
transport failure — raises the authentication error. -/
theorem C2_error_mapping (t : String) (ht : t ≠ "") (e now : Int)
    (hvalid : now < e - 60) (tokenNet : NetResult) (r : Response)
    (prompt msg : String) :
    (r.status = 401 →
      (FireflyClient.generate_image ⟨some (.str t), e⟩ now tokenNet (.resp r)
          prompt none none none none none none none none none []).result
        = .error (.authError ("Unauthorized: " ++ r.text))) ∧
    (400 ≤ r.status → r.status < 600 → r.status ≠ 401 →
      (FireflyClient.generate_image ⟨some (.str t), e⟩ now tokenNet (.resp r)
          prompt none none none none none none none none none []).result
        = .error (.apiError ("API error: " ++ r.text))) ∧
    ((FireflyClient.generate_image ⟨some (.str t), e⟩ now tokenNet
        (.netFail msg) prompt none none none none none none none none none
        []).result
      = .error (.apiError ("Request failed: " ++ msg))) ∧
    (∀ r2 : Response, 400 ≤ r2.status → r2.status < 600 →
      (AdobeIMSAuth.get_access_token ⟨none, 0⟩ now (.resp r2)).result
        = .error (.authError
            ("Failed to retrieve access token: " ++ httpErrorRepr r2))) ∧
    (∀ m : String,
      (AdobeIMSAuth.get_access_token ⟨none, 0⟩ now (.netFail m)).result
        = .error (.authError ("Failed to retrieve access token: " ++ m))) := by
  have hit := get_access_token_hit t ht e now hvalid
  refine ⟨?_, ?_, ?_, ?_, ?_⟩
  · intro h401
    have hreq : FireflyClient._request ⟨some (.str t), e⟩ now tokenNet (.resp r)
        = ⟨⟨some (.str t), e⟩,
            .error (.authError ("Unauthorized: " ++ r.text)),
            Bool.toNat false, 1⟩ := by
      rw [request_after_token (hit tokenNet) r, h401]
      simp
    rw [generate_image_result_error hreq prompt]
  · intro h4 h6 hne
    have hreq : FireflyClient._request ⟨some (.str t), e⟩ now tokenNet (.resp r)
        = ⟨⟨some (.str t), e⟩,
            .error (.apiError ("API error: " ++ r.text)),
            Bool.toNat false, 1⟩ := by
      rw [request_after_token (hit tokenNet) r, if_pos ⟨h4, h6⟩, if_neg hne]
    rw [generate_image_result_error hreq prompt]
  · have hreq := request_after_token_netfail (hit tokenNet) msg
    rw [generate_image_result_error hreq prompt]
  · intro r2 h4 h6
    show (AdobeIMSAuth.fetchAccessToken ⟨none, 0⟩ now (.resp r2)).result = _
    simp only [AdobeIMSAuth.fetchAccessToken]
    rw [if_pos ⟨h4, h6⟩]
  · intro m
    rfl

/-- C2 witness: a 401 response raises the authentication error and a
500 response raises the API error, at concrete inputs. -/
theorem C2_error_mapping_witness :
    ((FireflyClient.generate_image ⟨some (.str "t"), 1000⟩ 0 (.netFail "u")
        (.resp ⟨401, none, "denied"⟩) "p" none none none none none none none
        none none []).result
      = .error (.authError ("Unauthorized: " ++ "denied"))) ∧
    ((FireflyClient.generate_image ⟨some (.str "t"), 1000⟩ 0 (.netFail "u")
        (.resp ⟨500, none, "boom"⟩) "p" none none none none none none none
        none none []).result
      = .error (.apiError ("API error: " ++ "boom"))) :=
  ⟨(C2_error_mapping "t" (by decide) 1000 0 (by decide) (.netFail "u")
      ⟨401, none, "denied"⟩ "p" "m").1 rfl,
   (C2_error_mapping "t" (by decide) 1000 0 (by decide) (.netFail "u")
      ⟨500, none, "boom"⟩ "p" "m").2.1 (by decide) (by decide) (by decide)⟩

/-- C3: for every combination of supplied and omitted optional
parameters of `generate_image` (with a valid or absent content class and
no extra keyword arguments), the constructed request body is exactly the
required prompt entry followed by the wire-renamed entry for each
supplied optional parameter (num_variations as numVariations,
negative_prompt as negativePrompt, prompt_biasing_locale_code as
promptBiasingLocaleCode, aspect_ratio as aspectRatio, output_format as
outputFormat, content_class as contentClass; style, structure, seed
unchanged), and contains no key at all — not even a null-valued one —
for any optional parameter not supplied. -/
theorem C3_request_body_exact (prompt : String) (num_variations : Option Int)
    (style structure2 : Option Json)
    (prompt_biasing_locale_code negative_prompt : Option String)
    (seed : Option Int)
    (aspect_ratio2 output_format2 content_class : Option String)
    (hcc : content_class = none ∨ content_class = some "photo" ∨
      content_class = some "art") :
    buildRequestBody prompt num_variations style structure2
        prompt_biasing_locale_code negative_prompt seed aspect_ratio2
        output_format2 content_class [] =
      .ok ([("prompt", Json.str prompt)]
        ++ optEntry "numVariations" (num_variations.map Json.num)
        ++ optEntry "style" style
        ++ optEntry "structure" structure2
        ++ optEntry "promptBiasingLocaleCode"
            (prompt_biasing_locale_code.map Json.str)
        ++ optEntry "negativePrompt" (negative_prompt.map Json.str)
        ++ optEntry "seed" (seed.map Json.num)
        ++ optEntry "aspectRatio" (aspect_ratio2.map Json.str)
        ++ optEntry "outputFormat" (output_format2.map Json.str)
        ++ optEntry "contentClass" (content_class.map Json.str)) :=
  buildRequestBody_ok prompt num_variations style structure2
    prompt_biasing_locale_code negative_prompt seed aspect_ratio2
    output_format2 content_class hcc

/-- C3 witness: a concrete mix of supplied and omitted parameters
produces exactly the wire-renamed entries of the supplied ones. -/
theorem C3_request_body_exact_witness :
    buildRequestBody "p" (some 2) none none none (some "no cats") none
        (some "16:9") none (some "art") [] =
      .ok [("prompt", Json.str "p"), ("numVariations", Json.num 2),
        ("negativePrompt", Json.str "no cats"),
        ("aspectRatio", Json.str "16:9"),
        ("contentClass", Json.str "art")] := by
  have h := C3_request_body_exact "p" (some 2) none none none (some "no cats")
    none (some "16:9") none (some "art") (Or.inr (Or.inr rfl))
  simpa [optEntry] using h

/-- C4: the claim is right and the code is wrong.  First conjunct: a 2xx
generation response whose body is not JSON makes `generate_image` raise
the uncaught `requests.exceptions.JSONDecodeError` (a `ValueError`
subclass, absent from the caught tuple `(KeyError, IndexError,
TypeError)`), not the promised `FireflyAPIError` — contradicting the
docstring `Raises: FireflyAPIError, FireflyAuthError`.  Second conjunct:
for a parseable body missing `outputs`, the error message interpolates
the `Response` object repr `<Response [200]>`, not the raw body text
("RAWBODY" here), contradicting the promise that the error references
the raw body. -/
theorem C4_unexpected_format :
    ((FireflyClient.generate_image ⟨some (.str "tok"), 100000⟩ 0
        (.netFail "unused") (.resp ⟨200, none, "this body is not json"⟩)
        "p" none none none none none none none none none []).result
      = .error .jsonDecodeError) ∧
    ((FireflyClient.generate_image ⟨some (.str "tok"), 100000⟩ 0
        (.netFail "unused")
        (.resp ⟨200, some (.obj [("size", Json.obj [("width", Json.num 1),
          ("height", Json.num 1)])]), "RAWBODY"⟩)
        "p" none none none none none none none none none []).result
      = .error (.apiError "Unexpected response format: <Response [200]>")) :=
  ⟨rfl, rfl⟩

/-- C5: a `content_class` outside the set (photo, art) raises the local
`ValueError` — a kind distinct from both network error kinds — before
any network call: no credential exchange and no generation request is
performed, and no body is sent.  For the two valid values, the value is
forwarded verbatim in the request body under the key `contentClass`. -/
theorem C5_content_class_validation (st : AuthState) (now : Int)
    (tokenNet genNet : NetResult) (prompt cc : String)
    (num_variations : Option Int) (style structure2 : Option Json)
    (prompt_biasing_locale_code negative_prompt : Option String)
    (seed : Option Int) (aspect_ratio2 output_format2 : Option String)
    (kwargs : List (String × Json))
    (hcc : cc ≠ "photo" ∧ cc ≠ "art") :
    (FireflyClient.generate_image st now tokenNet genNet prompt
        num_variations style structure2 prompt_biasing_locale_code
        negative_prompt seed aspect_ratio2 output_format2 (some cc) kwargs
      = ⟨st, .error (.valueError "content_class must be either photo or art"),
          0, 0, none⟩) ∧
    (∀ cc2 : String, cc2 = "photo" ∨ cc2 = "art" →
      (FireflyClient.generate_image ⟨some (.str "t"), 1000000⟩ 0 tokenNet
          genNet prompt none none none none none none none none (some cc2)
          []).sentBody
        = some [("prompt", Json.str prompt),
            ("contentClass", Json.str cc2)]) := by
  constructor
  · have hb : buildRequestBody prompt num_variations style structure2
        prompt_biasing_locale_code negative_prompt seed aspect_ratio2
        output_format2 (some cc) kwargs
        = .error (.valueError "content_class must be either photo or art") := by
      simp only [buildRequestBody]
      rw [if_neg (fun hor => hor.elim hcc.1 hcc.2)]
    unfold FireflyClient.generate_image
    rw [hb]
  · rintro cc2 (rfl | rfl)
    · obtain ⟨res, hreq⟩ := request_after_token_genone
        (get_access_token_hit "t" (by decide) 1000000 0 (by decide) tokenNet)
        genNet
      exact (generate_image_sent prompt none none none none none none none
        none (some "photo") [] rfl hreq).1
    · obtain ⟨res, hreq⟩ := request_after_token_genone
        (get_access_token_hit "t" (by decide) 1000000 0 (by decide) tokenNet)
        genNet
      exact (generate_image_sent prompt none none none none none none none
        none (some "art") [] rfl hreq).1

/-- C5 witness: the value "landscape" is rejected locally with no
network call, while "photo" is forwarded verbatim as contentClass. -/
theorem C5_content_class_validation_witness :
    (FireflyClient.generate_image ⟨none, 0⟩ 0 (.netFail "u") (.netFail "u")
        "p" none none none none none none none none (some "landscape") []
      = ⟨⟨none, 0⟩,
          .error (.valueError "content_class must be either photo or art"),
          0, 0, none⟩) ∧
    ((FireflyClient.generate_image ⟨some (.str "t"), 1000000⟩ 0
        (.netFail "u") (.netFail "u") "p" none none none none none none none
        none (some "photo") []).sentBody
      = some [("prompt", Json.str "p"), ("contentClass", Json.str "photo")]) :=
  ⟨(C5_content_class_validation ⟨none, 0⟩ 0 (.netFail "u") (.netFail "u") "p"
      "landscape" none none none none none none none none []
      ⟨by decide, by decide⟩).1,
   (C5_content_class_validation ⟨some (.str "t"), 1000000⟩ 0 (.netFail "u")
      (.netFail "u") "p" "landscape" none none none none none none none none
      [] ⟨by decide, by decide⟩).2 "photo" (Or.inl rfl)⟩

/-- C6: the claim is right and the code is wrong.  With an old cache
(token "oldTok", expiry 10) and a 200 exchange whose `expires_in` is not
convertible by `int(...)` (here a JSON list), the call fails with the
authentication error, yet `_access_token` has already been overwritten
with "newTok" while `_token_expiry` keeps its old value 10 — a partial
overwrite, because the source assigns `self._access_token` before
computing `int(data.get(\x22expires_in\x22, 3600))`. -/
theorem C6_partial_cache_overwrite :
    (AdobeIMSAuth.get_access_token ⟨some (.str "oldTok"), 10⟩ 1000
        (.resp ⟨200, some (.obj [("access_token", .str "newTok"),
          ("expires_in", .arr [])]), ""⟩)
      = ⟨⟨some (.str "newTok"), 10⟩,
          .error (.authError
            ("Failed to retrieve access token: " ++ intConvRepr)), true⟩) ∧
    some (Json.str "newTok") ≠ some (Json.str "oldTok") := by
  refine ⟨rfl, ?_⟩
  intro h
  have h2 : "newTok" = "oldTok" := by
    injection h with h1
    injection h1
  exact absurd h2 (by decide)

/-- C7 counterexample: the client method `generate_image` performs NO
num_variations validation.  With `num_variations = 99` a generation
request is issued carrying `numVariations = 99`, and the failure that
surfaces is the server-side API error, not a local validation error. -/
theorem C7_counterexample :
    ((FireflyClient.generate_image ⟨some (.str "t"), 1000000⟩ 0
        (.netFail "unused") (.resp ⟨500, none, "err"⟩) "p" (some 99) none
        none none none none none none none []).genRequests = 1) ∧
    ((FireflyClient.generate_image ⟨some (.str "t"), 1000000⟩ 0
        (.netFail "unused") (.resp ⟨500, none, "err"⟩) "p" (some 99) none
        none none none none none none none []).sentBody
      = some [("prompt", Json.str "p"), ("numVariations", Json.num 99)]) ∧
    ((FireflyClient.generate_image ⟨some (.str "t"), 1000000⟩ 0
        (.netFail "unused") (.resp ⟨500, none, "err"⟩) "p" (some 99) none
        none none none none none none none []).result
      = .error (.apiError ("API error: " ++ "err"))) :=
  ⟨rfl, rfl, rfl⟩

/-- C7 (amended): the [1, 4] bound on num_variations is enforced by the
CLI front end (cli.py), not by the client: the CLI `generate` command
exits with code -1 before any client call when the value is out of
range and proceeds for in-range values, while the client method
forwards any out-of-range value to the service unvalidated. -/
theorem C7_num_variations_gate (nv : Int) (h : nv < 1 ∨ 4 < nv) :
    cli_generate_flow (some nv) = .exited (-1) ∧
    (∀ nv2 : Int, 1 ≤ nv2 → nv2 ≤ 4 →
      cli_generate_flow (some nv2) = .ranClient) ∧
    (∀ p : String,
      (FireflyClient.generate_image ⟨some (.str "t"), 1000000⟩ 0
          (.netFail "u") (.netFail "u") p (some nv) none none none none none
          none none none []).genRequests = 1 ∧
      (FireflyClient.generate_image ⟨some (.str "t"), 1000000⟩ 0
          (.netFail "u") (.netFail "u") p (some nv) none none none none none
          none none none []).sentBody
        = some [("prompt", Json.str p), ("numVariations", Json.num nv)]) := by
  refine ⟨?_, ?_, ?_⟩
  · show (if 1 ≤ nv ∧ nv ≤ 4 then CliResult.ranClient else .exited (-1))
      = .exited (-1)
    rw [if_neg (by omega)]
  · intro nv2 h1 h2
    show (if 1 ≤ nv2 ∧ nv2 ≤ 4 then CliResult.ranClient else .exited (-1))
      = .ranClient
    rw [if_pos ⟨h1, h2⟩]
  · intro p
    obtain ⟨res, hreq⟩ := request_after_token_genone
      (get_access_token_hit "t" (by decide) 1000000 0 (by decide)
        (.netFail "u")) (.netFail "u")
    have hs := generate_image_sent p (some nv) none none none none none none
      none none [] rfl hreq
    exact ⟨hs.2, hs.1⟩

/-- C7 witness: 99 is rejected by the CLI gate. -/
theorem C7_num_variations_gate_witness :
    cli_generate_flow (some 99) = .exited (-1) :=
  (C7_num_variations_gate 99 (Or.inr (by decide))).1

/-- C8: the round trip on the fixed mock body yields a result with
width 2048, height 2048, contentClass "art", first output seed
1779323515 and first output image url https with the expected value. -/
theorem C8_round_trip :
    ∃ r : FireflyImageResponse,
      (FireflyClient.generate_image ⟨none, 0⟩ 0
          (.resp ⟨200, some (.obj [("access_token", .str "t1"),
            ("expires_in", .num 3600)]), ""⟩)
          (.resp ⟨200, some (.obj [
            ("size", .obj [("width", .num 2048), ("height", .num 2048)]),
            ("outputs", .arr [.obj [("seed", .num 1779323515),
              ("image", .obj [("url", .str "https://example/asdf")])]]),
            ("contentClass", .str "art")]), "raw"⟩)
          "a cat coding" none none none none none none none none none
          []).result = .ok r ∧
      r.size.width = Json.num 2048 ∧
      r.size.height = Json.num 2048 ∧
      r.contentClass = some (Json.str "art") ∧
      r.outputs.map FireflyImageOutput.seed = [Json.num 1779323515] ∧
      r.outputs.map (fun o => o.image.url)
        = [Json.str "https://example/asdf"] :=
  ⟨_, rfl, rfl, rfl, rfl, rfl, rfl⟩

/-- C9: `data.update(kwargs)` runs last, so an extra keyword argument
whose key equals an already-set wire name silently replaces the value
in place (numVariations, and even prompt), and supplying `contentClass`
directly as an extra keyword argument bypasses the enum validation
entirely: an arbitrary string s is accepted and sent to the service in
the request body. -/
theorem C9_kwargs_override (p s : String) (n m : Int) :
    (buildRequestBody p (some n) none none none none none none none none
        [("numVariations", Json.num m)]
      = .ok [("prompt", Json.str p), ("numVariations", Json.num m)]) ∧
    (buildRequestBody p none none none none none none none none none
        [("prompt", Json.str s)]
      = .ok [("prompt", Json.str s)]) ∧
    ((FireflyClient.generate_image ⟨some (.str "t"), 1000000⟩ 0 (.netFail "u")
        (.netFail "u") p none none none none none none none none none
        [("contentClass", Json.str s)]).sentBody
      = some [("prompt", Json.str p), ("contentClass", Json.str s)]) ∧
    ((FireflyClient.generate_image ⟨some (.str "t"), 1000000⟩ 0 (.netFail "u")
        (.netFail "u") p none none none none none none none none none
        [("contentClass", Json.str s)]).genRequests = 1) ∧
    ((FireflyClient.generate_image ⟨some (.str "t"), 1000000⟩ 0 (.netFail "u")
        (.netFail "u") p none none none none none none none none none
        [("contentClass", Json.str s)]).result
      = .error (.apiError ("Request failed: " ++ "u"))) :=
  ⟨rfl, rfl, rfl, rfl, rfl⟩

/-- C10: the token is acquired before the generation request and outside
its exception handling, so when `get_access_token` raises, the same
error propagates out of `generate_image` unchanged — never re-wrapped by
the catch-all — no generation request is issued, no body is sent, and
the error is of the authentication kind. -/
theorem C10_auth_error_propagates (st : AuthState) (now : Int)
    (tokenNet genNet : NetResult) (prompt : String)
    (num_variations : Option Int) (style structure2 : Option Json)
    (prompt_biasing_locale_code negative_prompt : Option String)
    (seed : Option Int)
    (aspect_ratio2 output_format2 content_class : Option String)
    (kwargs : List (String × Json)) (e : FireflyError)
    (hcc : content_class = none ∨ content_class = some "photo" ∨
      content_class = some "art")
    (htok : (AdobeIMSAuth.get_access_token st now tokenNet).result
      = .error e) :
    (FireflyClient.generate_image st now tokenNet genNet prompt
        num_variations style structure2 prompt_biasing_locale_code
        negative_prompt seed aspect_ratio2 output_format2 content_class
        kwargs).result = .error e ∧
    (FireflyClient.generate_image st now tokenNet genNet prompt
        num_variations style structure2 prompt_biasing_locale_code
        negative_prompt seed aspect_ratio2 output_format2 content_class
        kwargs).genRequests = 0 ∧
    (FireflyClient.generate_image st now tokenNet genNet prompt
        num_variations style structure2 prompt_biasing_locale_code
        negative_prompt seed aspect_ratio2 output_format2 content_class
        kwargs).sentBody = none ∧
    e.isAuth = true := by
  obtain ⟨d, hd⟩ := buildRequestBody_isOk prompt num_variations style
    structure2 prompt_biasing_locale_code negative_prompt seed aspect_ratio2
    output_format2 content_class kwargs hcc
  have hauth := get_access_token_error_auth st now tokenNet e htok
  rcases hq : AdobeIMSAuth.get_access_token st now tokenNet with ⟨st2, res, b⟩
  rw [hq] at htok
  simp at htok
  subst htok
  have hreq := request_token_error hq genNet
  unfold FireflyClient.generate_image
  rw [hd, hreq]
  exact ⟨rfl, rfl, rfl, hauth⟩

/-- C10 witness: a transport failure of the token exchange surfaces the
authentication error out of `generate_image` with no generation
request. -/
theorem C10_auth_error_propagates_witness :
    (FireflyClient.generate_image ⟨none, 0⟩ 0 (.netFail "boom")
        (.netFail "x") "p" none none none none none none none none none
        []).result
      = .error (.authError ("Failed to retrieve access token: " ++ "boom")) ∧
    (FireflyClient.generate_image ⟨none, 0⟩ 0 (.netFail "boom")
        (.netFail "x") "p" none none none none none none none none none
        []).genRequests = 0 :=
  ⟨(C10_auth_error_propagates ⟨none, 0⟩ 0 (.netFail "boom") (.netFail "x")
      "p" none none none none none none none none none []
      (.authError ("Failed to retrieve access token: " ++ "boom"))
      (Or.inl rfl) rfl).1,
   (C10_auth_error_propagates ⟨none, 0⟩ 0 (.netFail "boom") (.netFail "x")
      "p" none none none none none none none none none []
      (.authError ("Failed to retrieve access token: " ++ "boom"))
      (Or.inl rfl) rfl).2.1⟩
